import Mathlib

/-!
Shallow embedding of the STM32F103 I2C master-mode driver (`src/i2c.rs`).

The hardware is modelled as an environment trace: a list of successive SR1
status-register readings consumed by the busy-wait loop, plus a queue of
bytes returned by data-register reads.  The driver's observable behaviour is
the sequence of register operations it performs (`RegOp` for transactions,
`CtorOp` for construction) together with its outcome: a Rust `assert!`
failure is `Outcome.panicked`, a busy-wait that exhausts the trace without
ever seeing a flag is `Outcome.diverged`, and the `Result<(), Error>` return
becomes `Outcome.err`/`Outcome.ok`.  Machine-integer casts in the source
(`as u8`, `as u16`) are modelled as `% 256` / `% 65536` on `Nat`.
-/

namespace I2cHal

/-- I2C error, from `enum Error` in `i2c.rs`. -/
inductive Error where
  | Bus
  | Arbitration
  | Acknowledge
  | Overrun
deriving DecidableEq, Repr

/-- Fast-mode duty cycle, from `enum DutyCycle`. -/
inductive DutyCycle where
  | Ratio1to1
  | Ratio16to9
deriving DecidableEq, Repr

/-- Bus mode, from `enum Mode`. -/
inductive Mode where
  | Standard (frequency : Nat)
  | Fast (frequency : Nat) (duty_cycle : DutyCycle)
deriving DecidableEq, Repr

/-- `Mode::get_frequency`. -/
def Mode.get_frequency : Mode → Nat
  | .Standard f => f
  | .Fast f _ => f

/-- One reading of the SR1 status register: the flags the driver inspects. -/
structure SR1 where
  berr : Bool := false
  arlo : Bool := false
  af : Bool := false
  ovr : Bool := false
  sb : Bool := false
  addrf : Bool := false
  txE : Bool := false
  rxNE : Bool := false
deriving DecidableEq, Repr

/-- A register operation performed by a transaction, in program order. -/
inductive RegOp where
  /-- `cr1.modify(start().set_bit())` -/
  | setStart
  /-- `cr1.modify(stop().set_bit())` -/
  | setStop
  /-- `dr.write(bits b)` -/
  | writeDR (b : Nat)
  /-- `sr2.read()` (mandatory read clearing the address-matched flag) -/
  | readSR2
  /-- `dr.read()` returning byte `b` -/
  | readDR (b : Nat)
deriving DecidableEq, Repr

/-- Result of a driver call. -/
inductive Outcome where
  | panicked
  | diverged
  | err (e : Error)
  | ok
deriving DecidableEq, Repr

/-- The `busy_wait!` macro: poll SR1 readings from the trace; on each
reading check the four error flags in priority order, then the awaited
flag.  `none` models the infinite loop on an exhausted trace; otherwise
the remaining trace is returned on success. -/
def busy_wait (flag : SR1 → Bool) : List SR1 → Option (Except Error (List SR1))
  | [] => none
  | s :: rest =>
    if s.berr then some (.error .Bus)
    else if s.arlo then some (.error .Arbitration)
    else if s.af then some (.error .Acknowledge)
    else if s.ovr then some (.error .Overrun)
    else if flag s then some (.ok rest)
    else busy_wait flag rest

/-- The data-transmission loop of `write`/`write_read`:
`for byte in bytes { busy_wait!(tx_e); dr.write(byte) }`.
Returns the operations performed and, unless the wait diverged or
errored, the remaining trace. -/
def sendBytes : List Nat → List SR1 → List RegOp × Option (Except Error (List SR1))
  | [], tr => ([], some (.ok tr))
  | b :: bs, tr =>
    match busy_wait (·.txE) tr with
    | none => ([], none)
    | some (.error e) => ([], some (.error e))
    | some (.ok tr1) =>
      let r := sendBytes bs tr1
      (RegOp.writeDR b :: r.1, r.2)

/-- The reception loop of `write_read`:
`for byte in buffer { busy_wait!(rx_ne); *byte = dr.read() }`.
`n` is the buffer length, `rx` the queue of bytes the hardware returns on
data-register reads.  Returns the operations performed, the bytes stored
into the buffer, and, unless the wait diverged or errored, the remaining
trace and receive queue. -/
def recvBytes : Nat → List SR1 → List Nat →
    List RegOp × List Nat × Option (Except Error (List SR1 × List Nat))
  | 0, tr, rx => ([], [], some (.ok (tr, rx)))
  | n + 1, tr, rx =>
    match busy_wait (·.rxNE) tr with
    | none => ([], [], none)
    | some (.error e) => ([], [], some (.error e))
    | some (.ok tr1) =>
      let b := rx.headD 0
      let r := recvBytes n tr1 rx.tail
      (RegOp.readDR b :: r.1, b :: r.2.1, r.2.2)

/-- `I2c::write(addr, bytes)` over a trace of SR1 readings: returns the
outcome and the register operations performed, in order. -/
def write (a : Nat) (bytes : List Nat) (tr : List SR1) : Outcome × List RegOp :=
  if bytes.length < 256 ∧ 0 < bytes.length then
    match busy_wait (·.sb) tr with
    | none => (.diverged, [.setStart])
    | some (.error e) => (.err e, [.setStart])
    | some (.ok tr1) =>
      match busy_wait (·.addrf) tr1 with
      | none => (.diverged, [.setStart, .writeDR (a &&& 0b11111110)])
      | some (.error e) => (.err e, [.setStart, .writeDR (a &&& 0b11111110)])
      | some (.ok tr2) =>
        let s := sendBytes bytes tr2
        let pre := RegOp.setStart :: RegOp.writeDR (a &&& 0b11111110) ::
          RegOp.readSR2 :: s.1
        match s.2 with
        | none => (.diverged, pre)
        | some (.error e) => (.err e, pre)
        | some (.ok tr3) =>
          match busy_wait (·.txE) tr3 with
          | none => (.diverged, pre)
          | some (.error e) => (.err e, pre)
          | some (.ok _) => (.ok, pre ++ [.setStop])
  else (.panicked, [])

/-- `I2c::write_read(addr, bytes, buffer)` over a trace of SR1 readings and
a queue `rx` of bytes the hardware supplies on data-register reads;
`n` is the buffer length.  Returns the outcome, the register operations
performed in order, and the bytes stored into the buffer. -/
def write_read (a : Nat) (bytes : List Nat) (n : Nat) (tr : List SR1)
    (rx : List Nat) : Outcome × List RegOp × List Nat :=
  if bytes.length < 256 ∧ 0 < bytes.length then
    if n < 256 ∧ 0 < n then
      match busy_wait (·.sb) tr with
      | none => (.diverged, [.setStart], [])
      | some (.error e) => (.err e, [.setStart], [])
      | some (.ok tr1) =>
        match busy_wait (·.addrf) tr1 with
        | none => (.diverged, [.setStart, .writeDR (a &&& 0b11111110)], [])
        | some (.error e) => (.err e, [.setStart, .writeDR (a &&& 0b11111110)], [])
        | some (.ok tr2) =>
          let s := sendBytes bytes tr2
          let pre := RegOp.setStart :: RegOp.writeDR (a &&& 0b11111110) ::
            RegOp.readSR2 :: s.1
          match s.2 with
          | none => (.diverged, pre, [])
          | some (.error e) => (.err e, pre, [])
          | some (.ok tr3) =>
            match busy_wait (·.txE) tr3 with
            | none => (.diverged, pre, [])
            | some (.error e) => (.err e, pre, [])
            | some (.ok tr4) =>
              match busy_wait (·.sb) tr4 with
              | none => (.diverged, pre ++ [.setStart], [])
              | some (.error e) => (.err e, pre ++ [.setStart], [])
              | some (.ok tr5) =>
                match busy_wait (·.addrf) tr5 with
                | none => (.diverged, pre ++ [.setStart, .writeDR (a ||| 0b00000001)], [])
                | some (.error e) => (.err e, pre ++ [.setStart, .writeDR (a ||| 0b00000001)], [])
                | some (.ok tr6) =>
                  let r := recvBytes n tr6 rx
                  let pre2 := pre ++ RegOp.setStart :: RegOp.writeDR (a ||| 0b00000001) ::
                    RegOp.readSR2 :: r.1
                  match r.2.2 with
                  | none => (.diverged, pre2, r.2.1)
                  | some (.error e) => (.err e, pre2, r.2.1)
                  | some (.ok _) => (.ok, pre2 ++ [.setStop], r.2.1)
    else (.panicked, [], [])
  else (.panicked, [], [])

/-- A register operation performed by the constructor (`hal!`'s `$i2cX`
function), in program order.  The three `apb*` operations target the RCC
(bus clock enable/reset) registers; the remaining ones target the I2C
peripheral's own registers. -/
inductive CtorOp where
  /-- `apb.enr().modify(i2cXen().enabled())` -/
  | apbEnable
  /-- `apb.rstr().modify(i2cXrst().set_bit())` -/
  | apbRstSet
  /-- `apb.rstr().modify(i2cXrst().clear_bit())` -/
  | apbRstClear
  /-- `cr2.modify`: clears LAST/DMAEN/ITBUFEN/ITEVTEN/ITERREN, sets the
  FREQ field to `freqrange as u8` -/
  | cr2Write (freqBits : Nat)
  /-- `cr1.write(pe().clear_bit())`: whole control register written to its
  reset value with the peripheral-enable bit cleared -/
  | cr1Reset
  /-- `trise.write(bits v)` -/
  | triseWrite (v : Nat)
  /-- `ccr.modify`/`ccr.write` with the CCR field and the DUTY flag -/
  | ccrWrite (c : Nat) (duty : Bool)
  /-- `cr1.modify(pe().set_bit())` -/
  | cr1SetPE
deriving DecidableEq, Repr

/-- Standard-mode rise-time register value: `(freqrange + 1) as u8`. -/
def trise_std (fr : Nat) : Nat := (fr + 1) % 256

/-- Fast-mode rise-time register value:
`(freqrange * 300 / 1000 + 1) as u8`, computed in `u16` arithmetic. -/
def trise_fast (fr : Nat) : Nat := (fr * 300 % 65536 / 1000 + 1) % 256

/-- Standard-mode clock-control value:
`((i2cclk / (freq * 2)) as u16).max(4)`. -/
def ccr_std (i2cclk f : Nat) : Nat := max (i2cclk / (f * 2) % 65536) 4

/-- Fast-mode, `Ratio1to1` clock-control value:
`((i2cclk / (freq * 3)) as u16).max(1)`. -/
def ccr_fast_1to1 (i2cclk f : Nat) : Nat := max (i2cclk / (f * 3) % 65536) 1

/-- Fast-mode, `Ratio16to9` clock-control value:
`((i2cclk / (freq * 25)) as u16).max(1)`. -/
def ccr_fast_16to9 (i2cclk f : Nat) : Nat := max (i2cclk / (f * 25) % 65536) 1

/-- The constructor generated by `hal!`: enable and pulse-reset the
peripheral clock on the APB bus, `assert!(freq <= 400_000)`, then write
CR2 (FREQ field), reset CR1 with PE cleared, write the mode's TRISE and
CCR values, and finally set PE.  A zero requested frequency makes the
Rust source divide by zero inside the CCR computation, i.e. panic after
the TRISE write. -/
def i2cInit (i2cclk : Nat) (mode : Mode) : Outcome × List CtorOp :=
  let apb := [CtorOp.apbEnable, CtorOp.apbRstSet, CtorOp.apbRstClear]
  let freq := mode.get_frequency
  if freq ≤ 400000 then
    let freqrange := i2cclk / 1000000 % 65536
    let pre := apb ++ [CtorOp.cr2Write (freqrange % 256), CtorOp.cr1Reset]
    match mode with
    | .Standard _ =>
      if freq = 0 then (.panicked, pre ++ [CtorOp.triseWrite (trise_std freqrange)])
      else (.ok, pre ++ [CtorOp.triseWrite (trise_std freqrange),
        CtorOp.ccrWrite (ccr_std i2cclk freq) false, CtorOp.cr1SetPE])
    | .Fast _ dc =>
      if freq = 0 then (.panicked, pre ++ [CtorOp.triseWrite (trise_fast freqrange)])
      else
        let cd := match dc with
          | .Ratio1to1 => (ccr_fast_1to1 i2cclk freq, false)
          | .Ratio16to9 => (ccr_fast_16to9 i2cclk freq, true)
        (.ok, pre ++ [CtorOp.triseWrite (trise_fast freqrange),
          CtorOp.ccrWrite cd.1 cd.2, CtorOp.cr1SetPE])
  else (.panicked, apb)

/-- The CCR value and duty flag written by a constructor run: the payload
of the first `ccrWrite` in the operation list, if any. -/
def ccrWritten : List CtorOp → Option (Nat × Bool)
  | [] => none
  | .ccrWrite c d :: _ => some (c, d)
  | _ :: rest => ccrWritten rest

/-- Does this constructor operation target the I2C peripheral's own
registers (as opposed to the RCC/APB clock registers)? -/
def isPeriphOp : CtorOp → Bool
  | .apbEnable | .apbRstSet | .apbRstClear => false
  | _ => true

/-- Does this constructor operation write one of the timing-related
fields (FREQ, TRISE, CCR)? -/
def isTimingOp : CtorOp → Bool
  | .cr2Write _ | .triseWrite _ | .ccrWrite _ _ => true
  | _ => false

/-- Peripheral-enable state after an operation: a peripheral reset or a
CR1 full write with PE cleared leaves PE clear; `cr1SetPE` sets it. -/
def peAfter (pe : Bool) : CtorOp → Bool
  | .apbRstSet => false
  | .apbRstClear => false
  | .cr1Reset => false
  | .cr1SetPE => true
  | _ => pe

/-- No timing-related field (FREQ, TRISE, CCR) is written at a point where
the peripheral-enable bit is set, starting from PE state `pe`. -/
def noTimingWhileEnabled (pe : Bool) : List CtorOp → Bool
  | [] => true
  | op :: rest => (!(isTimingOp op && pe)) && noTimingWhileEnabled (peAfter pe op) rest

/-! Error-free hardware events: SR1 readings with exactly one flag set. -/

/-- Start-condition-sent event (SB flag). -/
def sbEvent : SR1 := { sb := true }

/-- Address-acknowledged event (ADDR flag). -/
def addrEvent : SR1 := { addrf := true }

/-- Transmit-register-empty event (TxE flag). -/
def txEvent : SR1 := { txE := true }

/-- Receive-register-not-empty event (RxNE flag). -/
def rxEvent : SR1 := { rxNE := true }

/-- The error reported for an SR1 reading by the `busy_wait!` if-chain:
bus error, then arbitration loss, then acknowledge failure, then
overrun, in priority order. -/
def firstError (s : SR1) : Error :=
  if s.berr then .Bus
  else if s.arlo then .Arbitration
  else if s.af then .Acknowledge
  else .Overrun

lemma busy_wait_sb (tr : List SR1) :
    busy_wait (·.sb) (sbEvent :: tr) = some (.ok tr) := rfl

lemma busy_wait_addr (tr : List SR1) :
    busy_wait (·.addrf) (addrEvent :: tr) = some (.ok tr) := rfl

lemma busy_wait_tx (tr : List SR1) :
    busy_wait (·.txE) (txEvent :: tr) = some (.ok tr) := rfl

lemma busy_wait_rx (tr : List SR1) :
    busy_wait (·.rxNE) (rxEvent :: tr) = some (.ok tr) := rfl

/-- On a trace supplying one TxE event per byte, the transmission loop
writes exactly the given bytes to the data register and succeeds. -/
lemma sendBytes_replicate (bytes : List Nat) (tail : List SR1) :
    sendBytes bytes (List.replicate bytes.length txEvent ++ tail) =
      (bytes.map RegOp.writeDR, some (.ok tail)) := by
  induction bytes with
  | nil => rfl
  | cons b bs ih =>
    simp only [List.length_cons, List.replicate_succ, List.cons_append, sendBytes,
      busy_wait_tx, ih, List.map_cons]

/-- On a trace supplying one RxNE event per buffer slot and a receive
queue of exactly the buffer length, the reception loop reads and stores
exactly the queued bytes and succeeds. -/
lemma recvBytes_replicate (rx : List Nat) (tail : List SR1) :
    recvBytes rx.length (List.replicate rx.length rxEvent ++ tail) rx =
      (rx.map RegOp.readDR, rx, some (.ok (tail, []))) := by
  induction rx with
  | nil => rfl
  | cons b bs ih =>
    simp only [List.length_cons, List.replicate_succ, List.cons_append, recvBytes,
      busy_wait_rx, List.headD_cons, List.tail_cons, ih, List.map_cons]

/-- **C1.** For every address and non-empty byte list shorter than 256,
on a hardware trace supplying start-sent, address-acknowledged, and one
transmit-empty event per byte plus a final one (no error flags), `write`
performs exactly: START, address byte with bit 0 cleared, one SR2 read,
each data byte in order, STOP — and returns `Ok(())`. -/
theorem C1_write_exact_sequence (a : Nat) (bytes : List Nat)
    (h1 : 0 < bytes.length) (h2 : bytes.length < 256) :
    write a bytes (sbEvent :: addrEvent :: List.replicate (bytes.length + 1) txEvent) =
      (.ok, RegOp.setStart :: RegOp.writeDR (a &&& 0b11111110) :: RegOp.readSR2 ::
        (bytes.map RegOp.writeDR ++ [RegOp.setStop])) := by
  have key : List.replicate (bytes.length + 1) txEvent =
      List.replicate bytes.length txEvent ++ [txEvent] := List.replicate_succ' ..
  simp only [write, h1, h2, and_self, if_true, busy_wait_sb, busy_wait_addr, key,
    sendBytes_replicate, busy_wait_tx]
  rfl

/-- Witness for C1 at `addr = 0x42`, `bytes = [0xAA, 0xBB]`. -/
theorem C1_write_exact_sequence_witness :
    write 0x42 [0xAA, 0xBB] (sbEvent :: addrEvent :: List.replicate 3 txEvent) =
      (.ok, [RegOp.setStart, .writeDR 0x42, .readSR2, .writeDR 0xAA, .writeDR 0xBB,
        .setStop]) := by
  have h := C1_write_exact_sequence 0x42 [0xAA, 0xBB] (by decide) (by decide)
  simpa using h

lemma recvBytes_replicate_nil (rx : List Nat) :
    recvBytes rx.length (List.replicate rx.length rxEvent) rx =
      (rx.map RegOp.readDR, rx, some (.ok ([], []))) := by
  simpa using recvBytes_replicate rx []

/-- **C2.** Under an error-free trace supplying the events of a combined
write-then-read transaction, `write_read` performs the full write
sub-sequence without STOP, then a repeated START, the address with bit 0
set, an SR2 read, one data-register read per buffer slot, then STOP; it
returns `Ok(())` with the buffer filled by the received bytes. -/
theorem C2_write_read_exact_sequence (a : Nat) (bytes rx : List Nat)
    (h1 : 0 < bytes.length) (h2 : bytes.length < 256)
    (h3 : 0 < rx.length) (h4 : rx.length < 256) :
    write_read a bytes rx.length
      (sbEvent :: addrEvent :: (List.replicate (bytes.length + 1) txEvent ++
        sbEvent :: addrEvent :: List.replicate rx.length rxEvent)) rx =
      (.ok,
       RegOp.setStart :: RegOp.writeDR (a &&& 0b11111110) :: RegOp.readSR2 ::
         (bytes.map RegOp.writeDR ++
           (RegOp.setStart :: RegOp.writeDR (a ||| 0b00000001) :: RegOp.readSR2 ::
             (rx.map RegOp.readDR ++ [RegOp.setStop]))),
       rx) := by
  have key : List.replicate (bytes.length + 1) txEvent ++
      (sbEvent :: addrEvent :: List.replicate rx.length rxEvent) =
      List.replicate bytes.length txEvent ++
        (txEvent :: sbEvent :: addrEvent :: List.replicate rx.length rxEvent) := by
    rw [List.replicate_succ', List.append_assoc]
    rfl
  simp only [write_read, h1, h2, h3, h4, and_self, if_true, busy_wait_sb,
    busy_wait_addr, key, sendBytes_replicate, busy_wait_tx, recvBytes_replicate_nil,
    List.cons_append, List.append_assoc, List.singleton_append, List.nil_append]

/-- Witness for C2 at `addr = 0x42`, `bytes = [0x10]`, a two-byte buffer,
the simulated slave supplying bytes `[0x55, 0x66]`. -/
theorem C2_write_read_exact_sequence_witness :
    write_read 0x42 [0x10] 2
      (sbEvent :: addrEvent :: (List.replicate 2 txEvent ++
        sbEvent :: addrEvent :: List.replicate 2 rxEvent)) [0x55, 0x66] =
      (.ok, [RegOp.setStart, .writeDR 0x42, .readSR2, .writeDR 0x10, .setStart,
        .writeDR 0x43, .readSR2, .readDR 0x55, .readDR 0x66, .setStop],
       [0x55, 0x66]) := by
  have h := C2_write_read_exact_sequence 0x42 [0x10] [0x55, 0x66]
    (by decide) (by decide) (by decide) (by decide)
  simpa using h

/-- Counterexample to **C3** as stated: at `i2cclk = 2^31`, Standard mode
with frequency 1, the claimed CCR value `max(4, i2cclk / (freq * 2))` is
`2^30`, but the code casts the quotient to `u16` before the `max`, so the
value actually written is `4`. -/
theorem C3_counterexample :
    ccrWritten (i2cInit (2 ^ 31) (Mode.Standard 1)).2 ≠
      some (max 4 (2 ^ 31 / (1 * 2)), false) := by decide

/-- **C3** (amended): for positive frequency ≤ 400 kHz, the CCR value and
duty flag written at construction are `max(4, (i2cclk / (freq * 2)) mod
2^16)` with duty unset in Standard mode, `max(1, (i2cclk / (freq * 3))
mod 2^16)` with duty unset in Fast/Ratio1to1, and `max(1, (i2cclk /
(freq * 25)) mod 2^16)` with duty set in Fast/Ratio16to9 (the `mod 2^16`
being the source's `as u16` cast, applied before the `max`). -/
theorem C3_ccr_values (i2cclk f : Nat) (h0 : 0 < f) (hle : f ≤ 400000) :
    ccrWritten (i2cInit i2cclk (.Standard f)).2 =
      some (max 4 (i2cclk / (f * 2) % 65536), false) ∧
    ccrWritten (i2cInit i2cclk (.Fast f .Ratio1to1)).2 =
      some (max 1 (i2cclk / (f * 3) % 65536), false) ∧
    ccrWritten (i2cInit i2cclk (.Fast f .Ratio16to9)).2 =
      some (max 1 (i2cclk / (f * 25) % 65536), true) := by
  have hne : f ≠ 0 := Nat.pos_iff_ne_zero.mp h0
  refine ⟨?_, ?_, ?_⟩ <;>
    simp [i2cInit, Mode.get_frequency, hle, hne, ccrWritten, ccr_std,
      ccr_fast_1to1, ccr_fast_16to9, Nat.max_comm]

/-- Witness for C3 (amended) at `i2cclk = 8 MHz`, `freq = 100 kHz`. -/
theorem C3_ccr_values_witness :
    ccrWritten (i2cInit 8000000 (Mode.Standard 100000)).2 = some (40, false) ∧
    ccrWritten (i2cInit 8000000 (Mode.Fast 100000 .Ratio1to1)).2 = some (26, false) ∧
    ccrWritten (i2cInit 8000000 (Mode.Fast 100000 .Ratio16to9)).2 = some (3, true) := by
  have h := C3_ccr_values 8000000 100000 (by decide) (by decide)
  simpa using h

/-- **C4.** In each busy-wait iteration the four error flags are checked
in priority order before the awaited flag: whenever any error flag is set
in an SR1 reading, the wait returns the priority-ordered error, and never
the success path — whatever the awaited flag, even if it is set too. -/
theorem C4_error_priority (f : SR1 → Bool) (s : SR1) (rest : List SR1)
    (h : s.berr || s.arlo || s.af || s.ovr) :
    busy_wait f (s :: rest) = some (.error (firstError s)) ∧
    ∀ tr, busy_wait f (s :: rest) ≠ some (.ok tr) := by
  obtain ⟨b, ar, af, ov, sb, ad, tx, rx⟩ := s
  cases b <;> cases ar <;> cases af <;> cases ov <;>
    simp_all [busy_wait, firstError]

/-- Witness for C4: a reading with both the bus-error flag and the
awaited TxE flag set yields `Error::Bus`, not success. -/
theorem C4_error_priority_witness :
    busy_wait (·.txE) [{ berr := true, txE := true }] = some (.error .Bus) ∧
    ∀ tr, busy_wait (·.txE) [{ berr := true, txE := true }] ≠ some (.ok tr) := by
  have h := C4_error_priority (·.txE) { berr := true, txE := true } [] (by decide)
  simpa [firstError] using h

/-- Counterexample to **C5** as stated: in the constructor's operation
sequence (here at `i2cclk = 8 MHz`, Standard 100 kHz), the frequency
field (CR2) is written *before* the control-register reset (the CR1 full
write with PE cleared), not after it as the claimed order demands. -/
theorem C5_counterexample :
    ¬ ((i2cInit 8000000 (Mode.Standard 100000)).2.indexOf CtorOp.cr1Reset <
        (i2cInit 8000000 (Mode.Standard 100000)).2.indexOf (CtorOp.cr2Write 8)) ∧
    (i2cInit 8000000 (Mode.Standard 100000)).2.indexOf (CtorOp.cr2Write 8) <
      (i2cInit 8000000 (Mode.Standard 100000)).2.indexOf CtorOp.cr1Reset := by
  decide

/-- **C5** (amended): for a valid mode, the constructor's register
operations are exactly: APB clock enable, APB reset pulse, the frequency
field write, the control-register reset with the peripheral disabled,
the rise-time write, the clock-control write, and only then the
peripheral re-enable; and no frequency, rise-time, or clock-control
field is written while the peripheral-enable bit is set, whatever PE
state the run starts from. -/
theorem C5_ctor_sequence (i2cclk : Nat) (mode : Mode) (pe0 : Bool)
    (h0 : 0 < mode.get_frequency) (hle : mode.get_frequency ≤ 400000) :
    (∃ fr t c d,
      i2cInit i2cclk mode = (.ok,
        [CtorOp.apbEnable, .apbRstSet, .apbRstClear, .cr2Write fr, .cr1Reset,
          .triseWrite t, .ccrWrite c d, .cr1SetPE])) ∧
    noTimingWhileEnabled pe0 (i2cInit i2cclk mode).2 = true := by
  cases mode with
  | Standard f =>
    simp only [Mode.get_frequency] at h0 hle
    have hne : f ≠ 0 := Nat.pos_iff_ne_zero.mp h0
    constructor
    · exact ⟨i2cclk / 1000000 % 65536 % 256, trise_std (i2cclk / 1000000 % 65536),
        ccr_std i2cclk f, false, by simp [i2cInit, Mode.get_frequency, hle, hne]⟩
    · simp [i2cInit, Mode.get_frequency, hle, hne, noTimingWhileEnabled,
        isTimingOp, peAfter]
  | Fast f dc =>
    simp only [Mode.get_frequency] at h0 hle
    have hne : f ≠ 0 := Nat.pos_iff_ne_zero.mp h0
    cases dc with
    | Ratio1to1 =>
      constructor
      · exact ⟨i2cclk / 1000000 % 65536 % 256, trise_fast (i2cclk / 1000000 % 65536),
          ccr_fast_1to1 i2cclk f, false, by simp [i2cInit, Mode.get_frequency, hle, hne]⟩
      · simp [i2cInit, Mode.get_frequency, hle, hne, noTimingWhileEnabled,
          isTimingOp, peAfter]
    | Ratio16to9 =>
      constructor
      · exact ⟨i2cclk / 1000000 % 65536 % 256, trise_fast (i2cclk / 1000000 % 65536),
          ccr_fast_16to9 i2cclk f, true, by simp [i2cInit, Mode.get_frequency, hle, hne]⟩
      · simp [i2cInit, Mode.get_frequency, hle, hne, noTimingWhileEnabled,
          isTimingOp, peAfter]

/-- Witness for C5 (amended) at `i2cclk = 8 MHz`, Fast 400 kHz,
Ratio16to9, starting with PE set. -/
theorem C5_ctor_sequence_witness :
    (∃ fr t c d,
      i2cInit 8000000 (Mode.Fast 400000 .Ratio16to9) = (.ok,
        [CtorOp.apbEnable, .apbRstSet, .apbRstClear, .cr2Write fr, .cr1Reset,
          .triseWrite t, .ccrWrite c d, .cr1SetPE])) ∧
    noTimingWhileEnabled true (i2cInit 8000000 (Mode.Fast 400000 .Ratio16to9)).2 = true :=
  C5_ctor_sequence 8000000 (Mode.Fast 400000 .Ratio16to9) true (by decide) (by decide)

/-- Counterexample to **C6** as stated: at `freqrange = 0` the Fast-mode
rise-time register value equals the Standard-mode one (both 1); it is
not strictly less. -/
theorem C6_counterexample : ¬ (trise_fast 0 < trise_std 0) := by decide

set_option maxRecDepth 2000 in
/-- **C6** (amended): for every `freqrange` with `1 ≤ freqrange ≤ 254`
(so that neither value wraps in the `as u8` cast), the Fast-mode
rise-time register value is strictly less than the Standard-mode one;
at `freqrange = 0` the two are equal. -/
theorem C6_trise_fast_lt_std (fr : Nat) (h1 : 1 ≤ fr) (h2 : fr ≤ 254) :
    trise_fast fr < trise_std fr := by
  have key : ∀ x < 255, 1 ≤ x → trise_fast x < trise_std x := by decide
  exact key fr (by omega) h1

/-- Witness for C6 (amended) at `freqrange = 10`. -/
theorem C6_trise_fast_lt_std_witness : trise_fast 10 < trise_std 10 :=
  C6_trise_fast_lt_std 10 (by decide) (by decide)

/-- **C7.** Construction with a mode whose frequency exceeds 400 kHz
panics in the `assert!`, after only the three APB clock operations: no
register of the I2C peripheral itself has been written. -/
theorem C7_overfreq_panics (i2cclk : Nat) (mode : Mode)
    (h : 400000 < mode.get_frequency) :
    i2cInit i2cclk mode =
      (.panicked, [CtorOp.apbEnable, .apbRstSet, .apbRstClear]) ∧
    ((i2cInit i2cclk mode).2.all fun op => !isPeriphOp op) = true := by
  have hn : ¬ mode.get_frequency ≤ 400000 := by omega
  refine ⟨?_, ?_⟩ <;> simp [i2cInit, hn, isPeriphOp]

/-- Witness for C7 at Fast 500 kHz. -/
theorem C7_overfreq_panics_witness :
    i2cInit 8000000 (Mode.Fast 500000 .Ratio1to1) =
      (.panicked, [CtorOp.apbEnable, .apbRstSet, .apbRstClear]) ∧
    ((i2cInit 8000000 (Mode.Fast 500000 .Ratio1to1)).2.all
      fun op => !isPeriphOp op) = true :=
  C7_overfreq_panics 8000000 (Mode.Fast 500000 .Ratio1to1) (by decide)

/-- **C8.** `write` with an empty or 256+-byte list panics in the length
assert with an empty operation log (no register access), and
`write_read` panics likewise when either the byte list or the buffer
length is 0 or ≥ 256, again with no register operation performed. -/
theorem C8_length_asserts (a : Nat) (bytes : List Nat) (n : Nat)
    (tr : List SR1) (rx : List Nat) :
    (¬(0 < bytes.length ∧ bytes.length < 256) →
      write a bytes tr = (.panicked, [])) ∧
    (¬(0 < bytes.length ∧ bytes.length < 256) ∨ ¬(0 < n ∧ n < 256) →
      write_read a bytes n tr rx = (.panicked, [], [])) := by
  constructor
  · intro h
    have hc : ¬(bytes.length < 256 ∧ 0 < bytes.length) := fun ⟨x, y⟩ => h ⟨y, x⟩
    simp [write, hc]
  · intro h
    rcases h with h | h
    · have hc : ¬(bytes.length < 256 ∧ 0 < bytes.length) := fun ⟨x, y⟩ => h ⟨y, x⟩
      simp [write_read, hc]
    · have hc : ¬(n < 256 ∧ 0 < n) := fun ⟨x, y⟩ => h ⟨y, x⟩
      by_cases hb : bytes.length < 256 ∧ 0 < bytes.length <;>
        simp [write_read, hb, hc]

/-- Witness for C8: empty byte list for `write`; valid bytes but
zero-length buffer for `write_read`. -/
theorem C8_length_asserts_witness :
    write 0x42 [] [] = (.panicked, []) ∧
    write_read 0x42 [1] 0 [] [] = (.panicked, [], []) :=
  ⟨(C8_length_asserts 0x42 [] 0 [] []).1 (by decide),
    (C8_length_asserts 0x42 [1] 0 [] []).2 (Or.inr (by decide))⟩

/-- **C9.** If an acknowledge-failure reading (with neither
higher-priority error flag set) arrives during the address-wait phase,
both `write` and `write_read` return `Err(Error::Acknowledge)` with no
register write after the address byte: no SR2 read, no data-register
write, no STOP. -/
theorem C9_ack_failure_aborts (a : Nat) (bytes : List Nat) (n : Nat)
    (rx : List Nat) (s : SR1) (rest : List SR1)
    (hb1 : 0 < bytes.length) (hb2 : bytes.length < 256)
    (hn1 : 0 < n) (hn2 : n < 256)
    (haf : s.af = true) (hberr : s.berr = false) (harlo : s.arlo = false) :
    write a bytes (sbEvent :: s :: rest) =
      (.err .Acknowledge, [RegOp.setStart, .writeDR (a &&& 0b11111110)]) ∧
    write_read a bytes n (sbEvent :: s :: rest) rx =
      (.err .Acknowledge, [RegOp.setStart, .writeDR (a &&& 0b11111110)], []) := by
  have hw : busy_wait (·.addrf) (s :: rest) = some (.error .Acknowledge) := by
    simp [busy_wait, hberr, harlo, haf]
  constructor
  · simp [write, hb1, hb2, busy_wait_sb, hw]
  · simp [write_read, hb1, hb2, hn1, hn2, busy_wait_sb, hw]

/-- Witness for C9: a pure acknowledge-failure reading right after the
start condition, for `write 0x42 [0xAA]` and
`write_read 0x42 [0xAA] 1`. -/
theorem C9_ack_failure_aborts_witness :
    write 0x42 [0xAA] [sbEvent, { af := true }] =
      (.err .Acknowledge, [RegOp.setStart, .writeDR 0x42]) ∧
    write_read 0x42 [0xAA] 1 [sbEvent, { af := true }] [] =
      (.err .Acknowledge, [RegOp.setStart, .writeDR 0x42], []) := by
  have h := C9_ack_failure_aborts 0x42 [0xAA] 1 [] { af := true } []
    (by decide) (by decide) (by decide) (by decide) rfl rfl rfl
  simpa using h

set_option maxRecDepth 2000 in
lemma xor_one_and_mask (x : Nat) (hx : x < 256) :
    (x ^^^ 1) &&& 0b11111110 = x &&& 0b11111110 := by
  have key : ∀ y < 256, (y ^^^ 1) &&& 0b11111110 = y &&& 0b11111110 := by decide
  exact key x hx

set_option maxRecDepth 2000 in
lemma xor_one_or_one (x : Nat) (hx : x < 256) :
    (x ^^^ 1) ||| 0b00000001 = x ||| 0b00000001 := by
  have key : ∀ y < 256, (y ^^^ 1) ||| 0b00000001 = y ||| 0b00000001 := by decide
  exact key x hx

/-- **C10.** The observable behaviour of `write` and `write_read` does
not depend on bit 0 of the address argument: flipping it (XOR 1) yields
the identical operation sequence, result, and buffer contents, on every
byte list, buffer length, and simulated hardware trace. -/
theorem C10_addr_bit0_irrelevant (a : Nat) (ha : a < 256) (bytes : List Nat)
    (n : Nat) (tr : List SR1) (rx : List Nat) :
    write (a ^^^ 1) bytes tr = write a bytes tr ∧
    write_read (a ^^^ 1) bytes n tr rx = write_read a bytes n tr rx := by
  have h1 := xor_one_and_mask a ha
  have h2 := xor_one_or_one a ha
  constructor
  · simp only [write, h1]
  · simp only [write_read, h1, h2]

/-- Witness for C10 at `addr = 0x42` (so `0x43` behaves identically). -/
theorem C10_addr_bit0_irrelevant_witness :
    write 0x43 [0xAA] [sbEvent] = write 0x42 [0xAA] [sbEvent] ∧
    write_read 0x43 [0xAA] 1 [sbEvent] [] = write_read 0x42 [0xAA] 1 [sbEvent] [] := by
  have h := C10_addr_bit0_irrelevant 0x42 (by decide) [0xAA] 1 [sbEvent] []
  simpa using h

end I2cHal
